import Mathlib

/-!
Verification of the micro-content generation system
(SelfHostedAIModelForMicroContent).

The repository ships the Next.js dashboard (`frontend/src`), the API client
(`frontend/src/services/api.ts`), two start scripts and documentation.  The
backend core (Orchestrator, Stage Executor, Cost Model, History Store) is not
part of the checked-in sources, so those components are modelled from the
specification; each such definition carries a doc comment starting
`Modelled from the spec:`.  Frontend behaviour (`InputForm.handleSubmit`,
`PreviewCard.previewText`, the `GenerationListItem` summary shape) is embedded
directly from the TypeScript sources.
-/

namespace MicroContent

/-- The two request modes of `GenerationRequest.input_type`
(`frontend/src/services/api.ts`: `'topic' | 'prompt'`). -/
inductive InputType where
  | topic
  | prompt
deriving DecidableEq

/-- A stage of the pipeline that performs a model call (spec §4.1:
`stage_id ∈ {hook, caption, cta}`). -/
inductive StageId where
  | hook
  | caption
  | cta
deriving DecidableEq

/-- `GenerationRequest` (spec §3 and `frontend/src/services/api.ts`):
input type plus free-form content. -/
structure GenerationRequest where
  input_type : InputType
  input_content : String
deriving DecidableEq

/-- Modelled from the spec: §4.2 Cost Model, per-second billing rates
calibrated per stage.  The concrete rates are fixed from the README
Cost Breakdown (hook ~2s ↦ $0.00011, caption ~5s ↦ $0.00028,
cta ~1s ↦ $0.00006), i.e. per-second rates of $0.000055, $0.000056
and $0.00006. -/
def perSecondRate : StageId → ℚ
  | .hook => 55 / 1000000
  | .caption => 56 / 1000000
  | .cta => 60 / 1000000

/-- Modelled from the spec: §4.2 `cost(stage, elapsed_ms) -> decimal`,
deterministic and pure, linear in elapsed time (per-second billing); a
stage that did not run has `elapsed_ms = 0` and costs exactly 0. -/
def cost (stage : StageId) (elapsed_ms : ℕ) : ℚ :=
  perSecondRate stage * elapsed_ms / 1000

/-- Modelled from the spec: §4.3 step 4, the Merge stage cost is a fixed
small constant; the README Cost Breakdown fixes it at $0.00005. -/
def mergeBookkeepingCost : ℚ := 5 / 100000

/-- `StageResult` (spec §3): the value produced by one Stage Executor call. -/
structure StageResult where
  stage : StageId
  text : String
  cost : ℚ
  elapsed_ms : ℕ
  succeeded : Bool
  error : Option String
deriving DecidableEq

/-- Outcome of one call to the external endpoint for a stage: generated
text plus elapsed time on success, a failure reason otherwise (spec §4.1). -/
inductive EndpointOutcome where
  | success (text : String) (elapsed_ms : ℕ)
  | failure (reason : String)
deriving DecidableEq

/-- An environment of external endpoints, one outcome per stage.  The
pipeline is parametric in it, so a theorem quantified over all
environments holds regardless of any network behaviour. -/
def Endpoints : Type := StageId → EndpointOutcome

/-- Modelled from the spec: §4.1 Stage Executor
`execute(stage_id, prompt_context) -> StageResult`.  On success the cost
model is applied to the elapsed time; on endpoint failure the result is a
value with `succeeded: false, text: "", cost: 0` and the reason in
`error` — no exception is raised. -/
def execute (env : Endpoints) (stage : StageId) : StageResult :=
  match env stage with
  | .success text ms =>
      { stage := stage, text := text, cost := cost stage ms,
        elapsed_ms := ms, succeeded := true, error := none }
  | .failure reason =>
      { stage := stage, text := "", cost := 0,
        elapsed_ms := 0, succeeded := false, error := some reason }

/-- `GenerationRecord` with its store-assigned fields
(`frontend/src/services/api.ts`: `GenerationResponse`). -/
structure GenerationRecord where
  id : ℕ
  input_type : InputType
  input_content : String
  hook : Option String
  caption : Option String
  cta : Option String
  final_output : String
  cost : ℚ
  hook_cost : ℚ
  caption_cost : ℚ
  cta_cost : ℚ
  merge_cost : ℚ
  timestamp : ℕ
deriving DecidableEq

/-- A generation record before the History Store assigns `id` and
`timestamp` (spec §6: `create(record_without_id)`). -/
structure NewGenerationRecord where
  input_type : InputType
  input_content : String
  hook : Option String
  caption : Option String
  cta : Option String
  final_output : String
  cost : ℚ
  hook_cost : ℚ
  caption_cost : ℚ
  cta_cost : ℚ
  merge_cost : ℚ
deriving DecidableEq

/-- `GenerationListItem` (`frontend/src/services/api.ts`): the summary
shape returned by the history list operation.  It has exactly
`id, input_type, input_content, final_output, cost, timestamp` — no
`hook`, `caption` or `cta` field. -/
structure GenerationListItem where
  id : ℕ
  input_type : InputType
  input_content : String
  final_output : String
  cost : ℚ
  timestamp : ℕ
deriving DecidableEq

/-- Projection of a full record to its summary: keeps the six
`GenerationListItem` fields, drops `hook`, `caption`, `cta` and the
per-stage costs (spec §6: summary view omits the three intermediate
text fields). -/
def toListItem (r : GenerationRecord) : GenerationListItem :=
  { id := r.id, input_type := r.input_type,
    input_content := r.input_content, final_output := r.final_output,
    cost := r.cost, timestamp := r.timestamp }

/-- `HistoryResponse` (`frontend/src/services/api.ts`): one page of
summaries plus the total stored count. -/
structure HistoryResponse where
  items : List GenerationListItem
  total : ℕ
  page : ℕ
  page_size : ℕ
deriving DecidableEq

/-- Modelled from the spec: §2/§6 History Store, a durable key-ordered
record store with a surrogate-key counter. -/
structure HistoryStore where
  records : List GenerationRecord
  nextId : ℕ
deriving DecidableEq

/-- Modelled from the spec: §6 `create(record_without_id) ->
record_with_id_and_timestamp`; the store assigns the next surrogate id,
stamps the creation time, and appends the record. -/
def HistoryStore.create (s : HistoryStore) (r : NewGenerationRecord)
    (now : ℕ) : GenerationRecord × HistoryStore :=
  let stored : GenerationRecord :=
    { id := s.nextId, input_type := r.input_type,
      input_content := r.input_content, hook := r.hook,
      caption := r.caption, cta := r.cta,
      final_output := r.final_output, cost := r.cost,
      hook_cost := r.hook_cost, caption_cost := r.caption_cost,
      cta_cost := r.cta_cost, merge_cost := r.merge_cost,
      timestamp := now }
  (stored, { records := s.records ++ [stored], nextId := s.nextId + 1 })

/-- Modelled from the spec: §6 `list(page, page_size) -> {items:
[summary], total}` over the key-ordered store — the requested page of
summaries together with the total stored count. -/
def HistoryStore.list (s : HistoryStore) (page page_size : ℕ) :
    HistoryResponse :=
  { items := ((s.records.drop ((page - 1) * page_size)).take
      page_size).map toListItem,
    total := s.records.length, page := page, page_size := page_size }

/-- Modelled from the spec: §4.3 step 4 Merge stage — deterministic local
concatenation of the non-null components in the order hook, caption,
cta, with a blank line between consecutive components. -/
def mergeComponents (hook caption cta : Option String) : String :=
  String.intercalate "\n\n" (([hook, caption, cta]).filterMap id)

/-- What the spec's formatting rules describe, written out case by case:
hook line, blank line, caption body, blank line, CTA line, omitting any
null component without leaving an extra blank line. -/
def mergeFormatted : Option String → Option String → Option String → String
  | some h, some c, some t => h ++ "\n\n" ++ c ++ "\n\n" ++ t
  | some h, some c, none => h ++ "\n\n" ++ c
  | some h, none, some t => h ++ "\n\n" ++ t
  | some h, none, none => h
  | none, some c, some t => c ++ "\n\n" ++ t
  | none, some c, none => c
  | none, none, some t => t
  | none, none, none => ""

/-- `PipelineError` (spec §7): Hook stage failed; carries the underlying
stage and reason. -/
structure PipelineError where
  stage : StageId
  reason : String
deriving DecidableEq

/-- Modelled from the spec: §4.3 Orchestrator policy.  Hook is required:
if it fails the run aborts with `PipelineError` and nothing is written.
Caption and CTA are best-effort: a failure degrades the component to
`null` with cost 0.  Merge concatenates the non-null components, the
record is assembled with the aggregated cost and handed to the History
Store's create operation. -/
def run (env : Endpoints) (req : GenerationRequest) (store : HistoryStore)
    (now : ℕ) : Except PipelineError (GenerationRecord × HistoryStore) :=
  let hookR := execute env .hook
  if hookR.succeeded then
    let captionR := execute env .caption
    let ctaR := execute env .cta
    let caption := if captionR.succeeded then some captionR.text else none
    let caption_cost := if captionR.succeeded then captionR.cost else 0
    let cta := if ctaR.succeeded then some ctaR.text else none
    let cta_cost := if ctaR.succeeded then ctaR.cost else 0
    let final := mergeComponents (some hookR.text) caption cta
    let total := hookR.cost + caption_cost + cta_cost + mergeBookkeepingCost
    let draft : NewGenerationRecord :=
      { input_type := req.input_type, input_content := req.input_content,
        hook := some hookR.text, caption := caption, cta := cta,
        final_output := final, cost := total, hook_cost := hookR.cost,
        caption_cost := caption_cost, cta_cost := cta_cost,
        merge_cost := mergeBookkeepingCost }
    .ok (store.create draft now)
  else
    .error { stage := .hook, reason := hookR.error.getD "" }

/-- The store as the caller sees it after a run: the new store on
success, the untouched one when the run aborted. -/
def storeAfter (env : Endpoints) (req : GenerationRequest)
    (store : HistoryStore) (now : ℕ) : HistoryStore :=
  match run env req store now with
  | .ok (_, s) => s
  | .error _ => store

/-- Errors of the caller-facing generate operation (spec §7):
a validation rejection or a pipeline abort. -/
inductive GenerateError where
  | validation (message : String)
  | pipeline (e : PipelineError)
deriving DecidableEq

/-- Whitespace trimming as performed by JavaScript's `String.trim` (used
at `frontend/src/components/InputForm.tsx:16-17`) and by the backend
validation: drop leading and trailing whitespace characters. -/
def trimText (s : String) : String :=
  String.mk
    (((s.data.dropWhile Char.isWhitespace).reverse.dropWhile
      Char.isWhitespace).reverse)

/-- Modelled from the spec: §4.3 edge case — empty `input_content` after
trimming is rejected with `ValidationError` before the pipeline starts,
so it never reaches the Stage Executor. -/
def generate (env : Endpoints) (req : GenerationRequest)
    (store : HistoryStore) (now : ℕ) :
    Except GenerateError (GenerationRecord × HistoryStore) :=
  if trimText req.input_content = "" then
    .error (.validation "input_content must not be empty")
  else
    (run env req store now).mapError .pipeline

/-- `InputForm.handleSubmit`
(`frontend/src/components/InputForm.tsx:14-19`): submits
`(inputType, inputContent.trim())` when the trimmed content is
non-empty, otherwise does nothing. -/
def handleSubmit (inputType : InputType) (inputContent : String) :
    Option (InputType × String) :=
  if trimText inputContent ≠ "" then
    some (inputType, trimText inputContent)
  else none

/-- The failure-response body shape of the external handler
(`HANDLER_FIX_GUIDE.md`: `ErrorResponse` with `error` optional,
`message` and `code` present). -/
structure ErrorResponse where
  error : Option String
  message : String
  code : ℕ
deriving DecidableEq

/-- Modelled from the spec: §9 — the Inference Client tolerates either
shape of a failure response (error field present or absent) and turns it
into a failed `StageResult` value instead of raising a parse
exception. -/
def parseFailureResponse (stage : StageId) (resp : ErrorResponse) :
    Except String StageResult :=
  .ok { stage := stage, text := "", cost := 0, elapsed_ms := 0,
        succeeded := false,
        error := some (resp.error.getD resp.message) }

/-- `PreviewCard.previewText`
(`frontend/src/components/PreviewCard.tsx:12-14`): truncate
`final_output` to its first 150 characters plus `"..."` when longer
than 150 characters, otherwise show it unchanged. -/
def previewText (final_output : String) : String :=
  if final_output.length > 150 then
    (final_output.take 150) ++ "..."
  else final_output

/-- Fixture: endpoints where all three stages succeed with the README
scenario timings (hook 2000ms, caption 5000ms, cta 1000ms). -/
def envAll : Endpoints := fun s =>
  match s with
  | .hook => .success "H" 2000
  | .caption => .success "C" 5000
  | .cta => .success "T" 1000

/-- Fixture: endpoints where the Hook stage fails. -/
def envHookFail : Endpoints := fun s =>
  match s with
  | .hook => .failure "boom"
  | _ => .success "X" 1000

/-- Fixture: endpoints where only the Caption stage fails. -/
def envCaptionFail : Endpoints := fun s =>
  match s with
  | .hook => .success "H" 2000
  | .caption => .failure "caption down"
  | .cta => .success "T" 1000

/-- Fixture: an empty History Store. -/
def store0 : HistoryStore := { records := [], nextId := 1 }

/-- Fixture: the README scenario request. -/
def sampleRequest : GenerationRequest :=
  { input_type := .topic, input_content := "AI trends 2024" }

/-- Fixture: a request whose content is whitespace only. -/
def blankRequest : GenerationRequest :=
  { input_type := .topic, input_content := "   " }

/-- Fixture: a stored generation record with a given id. -/
def sampleRecord (n : ℕ) : GenerationRecord :=
  { id := n, input_type := .topic, input_content := "t", hook := some "h",
    caption := some "c", cta := some "x", final_output := "f", cost := 0,
    hook_cost := 0, caption_cost := 0, cta_cost := 0, merge_cost := 0,
    timestamp := 0 }

/-- Fixture: a History Store holding two records. -/
def sampleStore : HistoryStore :=
  { records := [sampleRecord 1, sampleRecord 2], nextId := 3 }

/-- Fixture: a 151-character string, one over the preview threshold. -/
def longSample : String := String.mk (List.replicate 151 'x')

/-- Fixture: a string within the preview threshold. -/
def shortSample : String := "short"

/-- The merge of non-null components agrees, case by case, with the
spec's formatting rules: components joined by one blank line, null
components omitted without an extra blank line. -/
theorem mergeComponents_eq_mergeFormatted (h c t : Option String) :
    mergeComponents h c t = mergeFormatted h c t := by
  cases h <;> cases c <;> cases t <;> rfl

/-- Projecting a record to its summary and then reading the summary id
gives the record id. -/
theorem id_comp_toListItem :
    GenerationListItem.id ∘ toListItem = GenerationRecord.id := by
  funext r
  rfl

/-- C1: if the Hook stage fails, `run` fails with a `PipelineError`
carrying the hook stage's failure reason, and the History Store's list
count is unchanged (no record is persisted). -/
theorem hook_failure_aborts_and_persists_nothing (env : Endpoints)
    (req : GenerationRequest) (store : HistoryStore) (now : ℕ)
    (reason : String) (h : env .hook = .failure reason) :
    run env req store now = .error ⟨.hook, reason⟩ ∧
    ∀ page psize, ((storeAfter env req store now).list page psize).total =
      (store.list page psize).total := by
  have hrun : run env req store now = .error ⟨.hook, reason⟩ := by
    simp [run, execute, h]
  exact ⟨hrun, fun p ps => by simp [storeAfter, hrun]⟩

/-- Witness for C1: with a hook endpoint that fails with reason "boom",
the run aborts with that reason and the empty store's list count is
still 0 afterwards. -/
theorem hook_failure_aborts_and_persists_nothing_witness :
    envHookFail .hook = .failure "boom" ∧
    run envHookFail sampleRequest store0 0 = .error ⟨.hook, "boom"⟩ ∧
    ((storeAfter envHookFail sampleRequest store0 0).list 1 10).total =
      (store0.list 1 10).total := by
  have h := hook_failure_aborts_and_persists_nothing envHookFail
    sampleRequest store0 0 "boom" rfl
  exact ⟨rfl, h.1, h.2 1 10⟩

/-- C2: if Hook succeeds and Caption fails, the run does not abort: a
record is persisted with `caption = none` and `caption_cost = 0`, and
its `cta` is populated whenever the CTA endpoint succeeds. -/
theorem caption_failure_degrades_gracefully (env : Endpoints)
    (req : GenerationRequest) (store : HistoryStore) (now : ℕ)
    (ht : String) (hms : ℕ) (creason : String)
    (hh : env .hook = .success ht hms)
    (hc : env .caption = .failure creason) :
    ∃ rec s2, run env req store now = .ok (rec, s2) ∧ rec.caption = none ∧
      rec.caption_cost = 0 ∧
      ∀ ct cms, env .cta = .success ct cms → rec.cta = some ct := by
  have hrun : run env req store now =
      .ok (store.create
        { input_type := req.input_type, input_content := req.input_content,
          hook := some ht, caption := none,
          cta := if (execute env .cta).succeeded then
            some (execute env .cta).text else none,
          final_output := mergeComponents (some ht) none
            (if (execute env .cta).succeeded then
              some (execute env .cta).text else none),
          cost := cost .hook hms + 0 +
            (if (execute env .cta).succeeded then (execute env .cta).cost
             else 0) + mergeBookkeepingCost,
          hook_cost := cost .hook hms, caption_cost := 0,
          cta_cost := if (execute env .cta).succeeded then
            (execute env .cta).cost else 0,
          merge_cost := mergeBookkeepingCost } now) := by
    simp [run, execute, hh, hc]
  refine ⟨_, _, hrun, rfl, rfl, ?_⟩
  intro ct cms hcta
  simp [HistoryStore.create, execute, hcta]

/-- Witness for C2: hook succeeds, caption endpoint fails with
"caption down", and the persisted record has a null caption, zero
caption cost, and a populated cta. -/
theorem caption_failure_degrades_gracefully_witness :
    envCaptionFail .hook = .success "H" 2000 ∧
    envCaptionFail .caption = .failure "caption down" ∧
    ∃ rec s2, run envCaptionFail sampleRequest store0 0 = .ok (rec, s2) ∧
      rec.caption = none ∧ rec.caption_cost = 0 ∧
      ∀ ct cms, envCaptionFail .cta = .success ct cms → rec.cta = some ct :=
  ⟨rfl, rfl, caption_failure_degrades_gracefully envCaptionFail
    sampleRequest store0 0 "H" 2000 "caption down" rfl rfl⟩

/-- C3: every record produced by a pipeline run has
`cost = hook_cost + caption_cost + cta_cost + merge_cost`, exactly. -/
theorem record_cost_is_sum_of_stage_costs (env : Endpoints)
    (req : GenerationRequest) (store : HistoryStore) (now : ℕ)
    (rec : GenerationRecord) (s2 : HistoryStore)
    (h : run env req store now = .ok (rec, s2)) :
    rec.cost = rec.hook_cost + rec.caption_cost + rec.cta_cost +
      rec.merge_cost := by
  rcases hb : (execute env .hook).succeeded
  · simp [run, hb] at h
  · simp [run, hb, HistoryStore.create, Prod.ext_iff] at h
    obtain ⟨h1, -⟩ := h
    subst h1
    rfl

/-- Witness for C3: the all-success README scenario produces a record
whose total cost is exactly the sum of the four cost fields. -/
theorem record_cost_is_sum_of_stage_costs_witness :
    ∃ rec s2, run envAll sampleRequest store0 0 = .ok (rec, s2) ∧
      rec.cost = rec.hook_cost + rec.caption_cost + rec.cta_cost +
        rec.merge_cost :=
  ⟨_, _, rfl, record_cost_is_sum_of_stage_costs envAll sampleRequest
    store0 0 _ _ rfl⟩

/-- C4: every record produced by a run that reached the Merge stage has
`final_output` equal to the deterministic local concatenation of its
non-null components in hook, caption, cta order, with one blank line
between consecutive components and no extra blank line for a null
component (`mergeFormatted` spells the formatting rules out case by
case). -/
theorem final_output_is_formatted_merge (env : Endpoints)
    (req : GenerationRequest) (store : HistoryStore) (now : ℕ)
    (rec : GenerationRecord) (s2 : HistoryStore)
    (h : run env req store now = .ok (rec, s2)) :
    rec.final_output = mergeFormatted rec.hook rec.caption rec.cta := by
  rcases hb : (execute env .hook).succeeded
  · simp [run, hb] at h
  · simp [run, hb, HistoryStore.create, Prod.ext_iff] at h
    obtain ⟨h1, -⟩ := h
    subst h1
    simp only [mergeComponents_eq_mergeFormatted]

/-- Witness for C4: the all-success scenario's record has its final
output equal to the formatted merge of its components. -/
theorem final_output_is_formatted_merge_witness :
    ∃ rec s2, run envAll sampleRequest store0 0 = .ok (rec, s2) ∧
      rec.final_output = mergeFormatted rec.hook rec.caption rec.cta :=
  ⟨_, _, rfl, final_output_is_formatted_merge envAll sampleRequest
    store0 0 _ _ rfl⟩

/-- C5: a request whose content trims to empty is rejected with a
validation error for every endpoint environment — so no Stage Executor
or network call is involved — and the input form only ever submits
trimmed, non-whitespace-only content. -/
theorem empty_input_rejected_before_pipeline :
    (∀ (env : Endpoints) (req : GenerationRequest) (store : HistoryStore)
       (now : ℕ), trimText req.input_content = "" →
       generate env req store now =
         .error (.validation "input_content must not be empty")) ∧
    (∀ (t : InputType) (content : String) (p : InputType × String),
       handleSubmit t content = some p →
       p.2 = trimText content ∧ trimText content ≠ "") := by
  constructor
  · intro env req store now hempty
    simp [generate, hempty]
  · intro t content p hsub
    by_cases hne : trimText content = ""
    · simp [handleSubmit, hne] at hsub
    · simp [handleSubmit, hne] at hsub
      exact ⟨by rw [← hsub], hne⟩

/-- Witness for C5: a whitespace-only request is rejected (under the
all-success endpoints, showing no endpoint behaviour is consulted), and
the form submits "  a " as its trimmed form "a". -/
theorem empty_input_rejected_before_pipeline_witness :
    trimText blankRequest.input_content = "" ∧
    generate envAll blankRequest store0 0 =
      .error (.validation "input_content must not be empty") ∧
    handleSubmit .topic "  a " = some (.topic, "a") ∧
    ((.topic, "a") : InputType × String).2 = trimText "  a " ∧
    trimText "  a " ≠ "" := by
  have h2 := empty_input_rejected_before_pipeline.1 envAll blankRequest
    store0 0 (by decide)
  have h4 := empty_input_rejected_before_pipeline.2 .topic "  a "
    (.topic, "a") (by decide)
  exact ⟨by decide, h2, by decide, h4.1, h4.2⟩

/-- C6: the Inference Client parses a failure response in both shapes —
`error` field absent or present — and in either case yields a failed
`StageResult` value instead of a parse exception. -/
theorem failure_response_parsed_in_both_shapes (stage : StageId)
    (m : String) (c : ℕ) :
    (∃ sr, parseFailureResponse stage ⟨none, m, c⟩ = .ok sr ∧
       sr.succeeded = false ∧ sr.error = some m) ∧
    (∀ r, ∃ sr, parseFailureResponse stage ⟨some r, m, c⟩ = .ok sr ∧
       sr.succeeded = false ∧ sr.error = some r) :=
  ⟨⟨_, rfl, rfl, rfl⟩, fun r => ⟨_, rfl, rfl, rfl⟩⟩

/-- C7: every item returned by the history list operation is the summary
projection of a stored record — it retains id, input type, input
content, final output, cost and timestamp — and the projection ignores
the three intermediate text fields: records agreeing on the six summary
fields yield the same list item whatever their hook, caption and cta. -/
theorem list_items_are_summaries :
    (∀ (s : HistoryStore) (page psize : ℕ) (item : GenerationListItem),
       item ∈ (s.list page psize).items →
       ∃ r ∈ s.records, item = toListItem r) ∧
    (∀ r r' : GenerationRecord, r.id = r'.id → r.input_type = r'.input_type →
       r.input_content = r'.input_content → r.final_output = r'.final_output →
       r.cost = r'.cost → r.timestamp = r'.timestamp →
       toListItem r = toListItem r') := by
  constructor
  · intro s page psize item hitem
    simp only [HistoryStore.list, List.mem_map] at hitem
    obtain ⟨r, hr, hmap⟩ := hitem
    exact ⟨r, List.mem_of_mem_drop (List.mem_of_mem_take hr), hmap.symm⟩
  · intro r r' h1 h2 h3 h4 h5 h6
    simp [toListItem, h1, h2, h3, h4, h5, h6]

/-- Witness for C7: the first item listed from the two-record store is
the summary of a stored record. -/
theorem list_items_are_summaries_witness :
    toListItem (sampleRecord 1) ∈ (sampleStore.list 1 10).items ∧
    ∃ r ∈ sampleStore.records, toListItem (sampleRecord 1) = toListItem r := by
  have hmem : toListItem (sampleRecord 1) ∈ (sampleStore.list 1 10).items := by
    simp [HistoryStore.list, sampleStore]
  exact ⟨hmem, list_items_are_summaries.1 sampleStore 1 10
    (toListItem (sampleRecord 1)) hmem⟩

/-- C8: for a store with distinct record ids holding at most 20 records,
pages 1 and 2 of size 10 carry disjoint id sets whose union is exactly
the set of stored record ids. -/
theorem pagination_pages_partition_store (s : HistoryStore)
    (hnd : (s.records.map GenerationRecord.id).Nodup)
    (hlen : s.records.length ≤ 20) :
    (∀ i, i ∈ (s.list 1 10).items.map GenerationListItem.id →
       i ∉ (s.list 2 10).items.map GenerationListItem.id) ∧
    (∀ i, (i ∈ (s.list 1 10).items.map GenerationListItem.id ∨
           i ∈ (s.list 2 10).items.map GenerationListItem.id) ↔
          i ∈ s.records.map GenerationRecord.id) := by
  have e1 : (s.list 1 10).items.map GenerationListItem.id =
      (s.records.map GenerationRecord.id).take 10 := by
    simp [HistoryStore.list, List.map_map, id_comp_toListItem]
  have e2 : (s.list 2 10).items.map GenerationListItem.id =
      (s.records.map GenerationRecord.id).drop 10 := by
    have hlen2 : (s.records.drop 10).length ≤ 10 := by
      simp only [List.length_drop]; omega
    simp [HistoryStore.list, List.map_map, id_comp_toListItem,
      List.take_of_length_le hlen2]
  have hsplit : (s.records.map GenerationRecord.id).take 10 ++
      (s.records.map GenerationRecord.id).drop 10 =
      s.records.map GenerationRecord.id :=
    List.take_append_drop 10 _
  have hnd2 : ((s.records.map GenerationRecord.id).take 10 ++
      (s.records.map GenerationRecord.id).drop 10).Nodup := by
    rw [hsplit]; exact hnd
  have hdisj := (List.nodup_append.mp hnd2).2.2
  constructor
  · intro i h1 h2
    rw [e1] at h1
    rw [e2] at h2
    exact hdisj h1 h2
  · intro i
    rw [e1, e2, ← List.mem_append, hsplit]

/-- Witness for C8: the two-record store has distinct ids, holds at most
20 records, and its two pages of size 10 partition its ids. -/
theorem pagination_pages_partition_store_witness :
    (sampleStore.records.map GenerationRecord.id).Nodup ∧
    sampleStore.records.length ≤ 20 ∧
    ((∀ i, i ∈ (sampleStore.list 1 10).items.map GenerationListItem.id →
        i ∉ (sampleStore.list 2 10).items.map GenerationListItem.id) ∧
     (∀ i, (i ∈ (sampleStore.list 1 10).items.map GenerationListItem.id ∨
            i ∈ (sampleStore.list 2 10).items.map GenerationListItem.id) ↔
           i ∈ sampleStore.records.map GenerationRecord.id)) :=
  ⟨by decide, by decide,
    pagination_pages_partition_store sampleStore (by decide) (by decide)⟩

/-- C9: the cost model is a pure function of the stage and elapsed time
(determinism and absence of I/O hold by construction), it never returns
a negative value, and a stage that did not run — zero elapsed time —
costs exactly 0. -/
theorem cost_model_nonneg_and_zero_when_not_run (stage : StageId)
    (ms : ℕ) : 0 ≤ cost stage ms ∧ cost stage 0 = 0 := by
  constructor
  · cases stage <;> (unfold cost perSecondRate; positivity)
  · cases stage <;> simp [cost]

/-- C10: the preview shown by `PreviewCard` is the first 150 characters
of `final_output` followed by "..." when the output is longer than 150
characters, and the unchanged output otherwise. -/
theorem preview_truncates_at_150 (s : String) :
    (150 < s.length → previewText s = s.take 150 ++ "...") ∧
    (s.length ≤ 150 → previewText s = s) := by
  constructor
  · intro h
    unfold previewText
    rw [if_pos (by omega)]
  · intro h
    unfold previewText
    rw [if_neg (by omega)]

set_option maxRecDepth 4000 in
/-- Witness for C10: a 151-character string is truncated with an
ellipsis; a 5-character string is shown unchanged. -/
theorem preview_truncates_at_150_witness :
    (150 < longSample.length ∧
      previewText longSample = longSample.take 150 ++ "...") ∧
    (shortSample.length ≤ 150 ∧ previewText shortSample = shortSample) :=
  ⟨⟨by decide, (preview_truncates_at_150 longSample).1 (by decide)⟩,
   ⟨by decide, (preview_truncates_at_150 shortSample).2 (by decide)⟩⟩

end MicroContent
